import Mathlib

/-
  Shallow embedding of the Project-record lifecycle and dashboard
  aggregation logic of `src/app.py` (BT-app-2.0).

  The persistent store (an SQLite table accessed through an ORM session)
  is modelled as a `List Project`, in insertion order: `session.add`
  appends, `session.delete` removes the queried record, and
  `query(Project).filter_by(name=...).first()` is `List.find?` on the
  name.  Float columns are modelled as `ℚ`; the `created_at` timestamp
  is an abstract `Nat` supplied by the caller.
-/

namespace BTApp

/-- The `Project` ORM model (src/app.py lines 25-43).  Column defaults:
`actual_cost`, `roi`, `execution_progress` default to `0`, `risk_level`
to `"Low"`, the free-text columns to `""`, `team_size` to `1`. -/
structure Project where
  name : String
  type : String
  phase : String
  department : String
  budget : ℚ
  actual_cost : ℚ
  roi : ℚ
  execution_progress : ℚ
  risk_level : String
  goals : String
  stakeholders : String
  initial_risks : String
  resources : String
  milestones : String
  team_size : Nat
  created_at : Nat
deriving DecidableEq, Repr

/-- One entry of the template catalog (src/app.py lines 99-104). -/
structure Template where
  goals : String
  stakeholders : String
  initial_risks : String
deriving DecidableEq, Repr

/-- The fixed template catalog `project_templates` (src/app.py lines 99-104). -/
def project_templates : List (String × Template) :=
  [ ("Turnaround Project",
      { goals := "Increase efficiency by 20%", stakeholders := "Ops, Finance",
        initial_risks := "High initial cost" }),
    ("Digitization",
      { goals := "Automate 50% of manual processes", stakeholders := "IT, Ops",
        initial_risks := "Integration with legacy systems" }),
    ("Special Project",
      { goals := "Launch new product line", stakeholders := "Marketing, R&D",
        initial_risks := "Market acceptance" }),
    ("New Technology Research and Implementation",
      { goals := "Research and implement AI solutions", stakeholders := "IT, R&D",
        initial_risks := "Rapid tech changes" }) ]

/-- `apply_template` (src/app.py lines 114-116):
`project_templates.get(template_name, {})` followed by
`.get('goals', '')` etc., i.e. a catalog miss yields the empty-string
triple rather than an error. -/
def apply_template (template_name : String) : String × String × String :=
  match project_templates.lookup template_name with
  | some t => (t.goals, t.stakeholders, t.initial_risks)
  | none => ("", "", "")

/-- The status expression of the dashboard (src/app.py line 201):
`"On Track" if p.execution_progress >= 80 else "Delayed" if
p.execution_progress >= 50 else "At Risk"`. -/
def classify_status (execution_progress : ℚ) : String :=
  if execution_progress ≥ 80 then "On Track"
  else if execution_progress ≥ 50 then "Delayed"
  else "At Risk"

/-- The grouped-count computation of the dashboard (src/app.py lines
212, 217, 222): `df["Project"].groupby(keys).count()` — one row per
distinct key value, counting the occurrences of that key. -/
def group_counts (keys : List String) : List (String × Nat) :=
  keys.dedup.map fun k => (k, keys.count k)

/-- The record built by the Add-Project branch (src/app.py lines
241-251): explicit fields plus the ORM column defaults for the
remaining columns. -/
def mkNewProject (name ty ph dept : String) (budget : ℚ) (now : Nat) : Project :=
  { name := name, type := ty, phase := ph, department := dept, budget := budget,
    actual_cost := 0, roi := 0, execution_progress := 0, risk_level := "Low",
    goals := "", stakeholders := "", initial_risks := "", resources := "",
    milestones := "", team_size := 1, created_at := now }

/-- `session.query(Project).filter_by(name=name).first()`. -/
def findByName (store : List Project) (name : String) : Option Project :=
  store.find? fun p => p.name == name

/-- The Add-Project branch (src/app.py lines 237-254): rejects an empty
or already-used name (one combined error message), otherwise appends a
new record with the column defaults.  `none` models the `st.error`
path, in which nothing is written. -/
def createProject (store : List Project) (name ty ph dept : String) (budget : ℚ)
    (now : Nat) : Option (List Project) :=
  if name = "" ∨ (findByName store name).isSome then none
  else some (store ++ [mkNewProject name ty ph dept budget now])

/-- The Update-Project branch (src/app.py lines 256-270): the first
record with the given name gets its `phase`, `department` and `budget`
overwritten; when no record matches, nothing happens and no message of
any kind is emitted (the `if update_project:` guard silently skips).
The boolean is `true` exactly when the success message was shown. -/
def updateProject : List Project → String → String → String → ℚ → List Project × Bool
  | [], _, _, _, _ => ([], false)
  | p :: ps, name, ph, dept, budget =>
    if p.name = name then
      ({ p with phase := ph, department := dept, budget := budget } :: ps, true)
    else
      let r := updateProject ps name ph dept budget
      (p :: r.1, r.2)

/-- The Delete-Project branch (src/app.py lines 272-280): the first
record with the given name is removed; when no record matches, nothing
happens and no message of any kind is emitted (the `if delete_project:`
guard silently skips).  The boolean is `true` exactly when the success
message was shown. -/
def deleteProject : List Project → String → List Project × Bool
  | [], _ => ([], false)
  | p :: ps, name =>
    if p.name = name then (ps, true)
    else
      let r := deleteProject ps name
      (p :: r.1, r.2)

/-- Result of rendering a page over the project list: the pages guarded
by `if not projects:` (src/app.py lines 195-197, 373-375) emit a
"No projects found" warning and return early instead of aggregating. -/
inductive PageView (α : Type) where
  | warning : PageView α
  | view : α → PageView α
deriving DecidableEq, Repr

/-- The dashboard status table (src/app.py lines 194-205): early
warning on an empty store, otherwise one row `(name, status,
completion)` per project. -/
def dashboard_status_table (projects : List Project) :
    PageView (List (String × String × ℚ)) :=
  if projects = [] then PageView.warning
  else PageView.view (projects.map fun p =>
    (p.name, classify_status p.execution_progress, p.execution_progress))

/-- The portfolio page (src/app.py lines 369-387): early warning on an
empty store, otherwise rows `(portfolio, project, budget)` — it charts
per-project budgets and computes no totals. -/
def project_portfolio_management (projects : List Project) :
    PageView (List (String × String × ℚ)) :=
  if projects = [] then PageView.warning
  else PageView.view (projects.map fun p => (p.name, p.name, p.budget))

/-- C1: status classification returns On Track when progress >= 80,
Delayed when 50 <= progress < 80, At Risk when progress < 50; the
boundaries 80, 79.9, 50 and 49.9 classify as On Track, Delayed, Delayed
and At Risk respectively. -/
theorem C1_classify_boundaries :
    (∀ p : ℚ, 80 ≤ p → classify_status p = "On Track") ∧
    (∀ p : ℚ, 50 ≤ p → p < 80 → classify_status p = "Delayed") ∧
    (∀ p : ℚ, p < 50 → classify_status p = "At Risk") ∧
    classify_status 80 = "On Track" ∧
    classify_status (799/10) = "Delayed" ∧
    classify_status 50 = "Delayed" ∧
    classify_status (499/10) = "At Risk" := by
  refine ⟨?_, ?_, ?_, ?_, ?_, ?_, ?_⟩
  · intro p h
    simp [classify_status, h]
  · intro p h1 h2
    simp [classify_status, h1, not_le.mpr h2]
  · intro p h
    have h2 : ¬ p ≥ 80 := by linarith
    have h3 : ¬ p ≥ 50 := by linarith
    simp [classify_status, h2, h3]
  · norm_num [classify_status]
  · norm_num [classify_status]
  · norm_num [classify_status]
  · norm_num [classify_status]

/-- C1 witness: the three bucket rules applied at 90, 60 and 30. -/
theorem C1_classify_boundaries_witness :
    classify_status 90 = "On Track" ∧ classify_status 60 = "Delayed" ∧
    classify_status 30 = "At Risk" :=
  ⟨C1_classify_boundaries.1 90 (by norm_num),
   C1_classify_boundaries.2.1 60 (by norm_num) (by norm_num),
   C1_classify_boundaries.2.2.1 30 (by norm_num)⟩

/-- C10: classification is total over all rationals with no range
validation: any progress above 100 is On Track and any negative
progress is At Risk. -/
theorem C10_classify_out_of_range :
    (∀ p : ℚ, 100 < p → classify_status p = "On Track") ∧
    (∀ p : ℚ, p < 0 → classify_status p = "At Risk") := by
  constructor
  · intro p h
    have h2 : (80 : ℚ) ≤ p := by linarith
    simp [classify_status, h2]
  · intro p h
    have h2 : ¬ p ≥ 80 := by linarith
    have h3 : ¬ p ≥ 50 := by linarith
    simp [classify_status, h2, h3]

/-- C10 witness: 150 is On Track and -5 is At Risk. -/
theorem C10_classify_out_of_range_witness :
    classify_status 150 = "On Track" ∧ classify_status (-5) = "At Risk" :=
  ⟨C10_classify_out_of_range.1 150 (by norm_num),
   C10_classify_out_of_range.2 (-5) (by norm_num)⟩

/-- C9: apply_template never signals an error; for any name outside the
catalog it returns the triple of three empty strings. -/
theorem C9_apply_template_total (name : String)
    (h : project_templates.lookup name = none) :
    apply_template name = ("", "", "") := by
  simp [apply_template, h]

/-- C9 witness: the name Nonexistent is outside the catalog and yields
the empty triple. -/
theorem C9_apply_template_total_witness :
    project_templates.lookup "Nonexistent" = none ∧
    apply_template "Nonexistent" = ("", "", "") :=
  ⟨by decide, C9_apply_template_total "Nonexistent" (by decide)⟩

/-- C2 counterexample: apply_template of a name outside the catalog
returns the empty triple instead of failing, and the create path
accepts a project whose type is that unknown name. -/
theorem C2_counterexample :
    apply_template "Nonexistent" = ("", "", "") ∧
    (createProject [] "P" "Nonexistent" "None" "None" 0 0).isSome = true := by
  constructor
  · decide
  · decide

/-- C2 amended: for a template name outside the catalog, apply_template
silently returns the empty-string triple, and project creation with
that name as the type succeeds rather than being rejected. -/
theorem C2_unknown_template_create (store : List Project) (name ty ph dept : String)
    (b : ℚ) (now : Nat)
    (hty : project_templates.lookup ty = none)
    (hname : name ≠ "")
    (hfresh : findByName store name = none) :
    apply_template ty = ("", "", "") ∧
    (createProject store name ty ph dept b now).isSome = true := by
  constructor
  · simp [apply_template, hty]
  · simp [createProject, hname, hfresh]

/-- C2 witness: creating a project of the unknown type Nonexistent into
an empty store succeeds, with the template resolving to empty strings. -/
theorem C2_unknown_template_create_witness :
    project_templates.lookup "Nonexistent" = none ∧
    ("P" : String) ≠ "" ∧
    findByName [] "P" = none ∧
    apply_template "Nonexistent" = ("", "", "") ∧
    (createProject [] "P" "Nonexistent" "Scoping" "HR" 5 0).isSome = true := by
  have h1 : project_templates.lookup "Nonexistent" = none := by decide
  have h2 : ("P" : String) ≠ "" := by decide
  have h3 : findByName [] "P" = none := by decide
  have h := C2_unknown_template_create [] "P" "Nonexistent" "Scoping" "HR" 5 0 h1 h2 h3
  exact ⟨h1, h2, h3, h.1, h.2⟩

/-- C3 counterexample: a successful creation of a Digitization-typed
project leaves goals as the empty column default, which differs from
the goals text the template catalog assigns to Digitization. -/
theorem C3_counterexample :
    createProject [] "P" "Digitization" "None" "Automation" 10 0 =
      some [mkNewProject "P" "Digitization" "None" "Automation" 10 0] ∧
    (mkNewProject "P" "Digitization" "None" "Automation" 10 0).goals = "" ∧
    (apply_template "Digitization").1 = "Automate 50% of manual processes" ∧
    (mkNewProject "P" "Digitization" "None" "Automation" 10 0).goals ≠
      (apply_template "Digitization").1 := by
  refine ⟨by decide, rfl, by decide, by decide⟩

/-- C3 amended: every successful create persists a record with
actual_cost 0, roi 0, execution_progress 0, risk_level Low, and the
empty-string column defaults for goals, stakeholders and initial_risks
(the template is never consulted by the create path); apply_template of
Digitization does return the catalog triple. -/
theorem C3_create_fields (store store2 : List Project) (name ty ph dept : String)
    (b : ℚ) (now : Nat)
    (h : createProject store name ty ph dept b now = some store2) :
    store2 = store ++ [mkNewProject name ty ph dept b now] ∧
    (mkNewProject name ty ph dept b now).actual_cost = 0 ∧
    (mkNewProject name ty ph dept b now).roi = 0 ∧
    (mkNewProject name ty ph dept b now).execution_progress = 0 ∧
    (mkNewProject name ty ph dept b now).risk_level = "Low" ∧
    (mkNewProject name ty ph dept b now).goals = "" ∧
    (mkNewProject name ty ph dept b now).stakeholders = "" ∧
    (mkNewProject name ty ph dept b now).initial_risks = "" ∧
    apply_template "Digitization" =
      ("Automate 50% of manual processes", "IT, Ops",
        "Integration with legacy systems") := by
  refine ⟨?_, rfl, rfl, rfl, rfl, rfl, rfl, rfl, by decide⟩
  unfold createProject at h
  split at h
  · exact absurd h (by simp)
  · exact (Option.some.inj h).symm

/-- C3 witness: the create-defaults theorem applied to a concrete
Digitization creation in the empty store. -/
theorem C3_create_fields_witness :
    createProject [] "Q" "Digitization" "None" "Automation" 7 0 =
      some ([] ++ [mkNewProject "Q" "Digitization" "None" "Automation" 7 0]) ∧
    (mkNewProject "Q" "Digitization" "None" "Automation" 7 0).risk_level = "Low" := by
  have h : createProject [] "Q" "Digitization" "None" "Automation" 7 0 =
      some ([] ++ [mkNewProject "Q" "Digitization" "None" "Automation" 7 0]) := by
    decide
  exact ⟨h, (C3_create_fields [] _ "Q" "Digitization" "None" "Automation" 7 0 h).2.2.2.2.1⟩

/-- Helper: deleting a name that no record carries is the silent no-op. -/
lemma deleteProject_of_not_mem (store : List Project) (name : String)
    (h : ∀ p ∈ store, p.name ≠ name) :
    deleteProject store name = (store, false) := by
  induction store with
  | nil => rfl
  | cons p ps ih =>
    have hp : p.name ≠ name := h p (List.mem_cons_self p ps)
    have ihs := ih fun q hq => h q (List.mem_cons_of_mem p hq)
    simp [deleteProject, hp, ihs]

/-- Helper: deleting removes exactly the first record with the name. -/
lemma deleteProject_of_found (l1 : List Project) (b : Project) (l2 : List Project)
    (name : String) (hb : b.name = name) (h1 : ∀ p ∈ l1, p.name ≠ name) :
    deleteProject (l1 ++ b :: l2) name = (l1 ++ l2, true) := by
  induction l1 with
  | nil => simp [deleteProject, hb]
  | cons p ps ih =>
    have hp : p.name ≠ name := h1 p (List.mem_cons_self p ps)
    have ihs := ih fun q hq => h1 q (List.mem_cons_of_mem p hq)
    simp [deleteProject, hp, ihs]

/-- Helper: updating a name that no record carries is the silent no-op. -/
lemma updateProject_of_not_mem (store : List Project) (name ph dept : String) (b : ℚ)
    (h : ∀ p ∈ store, p.name ≠ name) :
    updateProject store name ph dept b = (store, false) := by
  induction store with
  | nil => rfl
  | cons p ps ih =>
    have hp : p.name ≠ name := h p (List.mem_cons_self p ps)
    have ihs := ih fun q hq => h q (List.mem_cons_of_mem p hq)
    simp [updateProject, hp, ihs]

/-- Helper: updating rewrites exactly the first record with the name,
patching only phase, department and budget. -/
lemma updateProject_of_found (l1 : List Project) (q : Project) (l2 : List Project)
    (name ph dept : String) (b : ℚ) (hq : q.name = name)
    (h1 : ∀ p ∈ l1, p.name ≠ name) :
    updateProject (l1 ++ q :: l2) name ph dept b =
      (l1 ++ { q with phase := ph, department := dept, budget := b } :: l2, true) := by
  induction l1 with
  | nil => simp [updateProject, hq]
  | cons p ps ih =>
    have hp : p.name ≠ name := h1 p (List.mem_cons_self p ps)
    have ihs := ih fun r hr => h1 r (List.mem_cons_of_mem p hr)
    simp [updateProject, hp, ihs]

/-- Helper: update never changes the name column of any record. -/
lemma updateProject_map_name (store : List Project) (name ph dept : String) (b : ℚ) :
    (updateProject store name ph dept b).1.map Project.name = store.map Project.name := by
  induction store with
  | nil => rfl
  | cons p ps ih =>
    by_cases hp : p.name = name
    · simp [updateProject, hp]
    · simp [updateProject, hp, ih]

/-- Helper: update never changes the created_at column of any record. -/
lemma updateProject_map_created_at (store : List Project) (name ph dept : String)
    (b : ℚ) :
    (updateProject store name ph dept b).1.map Project.created_at =
      store.map Project.created_at := by
  induction store with
  | nil => rfl
  | cons p ps ih =>
    by_cases hp : p.name = name
    · simp [updateProject, hp]
    · simp [updateProject, hp, ih]

/-- C4 counterexample: creation with a negative budget succeeds — the
Add-Project branch applies no budget validation of its own (the widget
minimum is the only guard), so the claimed ValidationError does not
occur. -/
theorem C4_counterexample :
    (createProject [] "NegBudget" "Digitization" "None" "Automation" (-5) 0).isSome
      = true := by
  decide

/-- C4 amended: create fails (with one combined error message) when the
name is empty or already taken, and writes nothing in that case; a
successful create leaves exactly one record with the new name, and a
second create under the same name fails and writes nothing.  No
negative-budget validation is performed by the create branch (the input
widget's minimum of 0 is the only guard). -/
theorem C4_create_validation (store : List Project) (name ty ph dept : String)
    (b : ℚ) (now : Nat) :
    (name = "" → createProject store name ty ph dept b now = none) ∧
    ((∃ p ∈ store, p.name = name) → createProject store name ty ph dept b now = none) ∧
    (∀ store2, createProject store name ty ph dept b now = some store2 →
      store2.countP (fun p => p.name == name) = 1 ∧
      ∀ ty2 ph2 dept2 b2 now2,
        createProject store2 name ty2 ph2 dept2 b2 now2 = none) := by
  refine ⟨?_, ?_, ?_⟩
  · intro h
    simp [createProject, h]
  · rintro ⟨p, hp, hpe⟩
    have hsome : (findByName store name).isSome = true := by
      rw [findByName, List.find?_isSome]
      exact ⟨p, hp, by simp [hpe]⟩
    simp [createProject, hsome]
  · intro store2 h
    unfold createProject at h
    split at h
    · exact absurd h (by simp)
    · rename_i hcond
      push_neg at hcond
      obtain ⟨hname, hfind⟩ := hcond
      have hnone : findByName store name = none :=
        Option.not_isSome_iff_eq_none.mp (by simpa using hfind)
      have hzero : store.countP (fun p => p.name == name) = 0 := by
        rw [List.countP_eq_zero]
        intro a ha
        exact (List.find?_eq_none.mp hnone) a ha
      have hstore2 : store2 = store ++ [mkNewProject name ty ph dept b now] :=
        (Option.some.inj h).symm
      constructor
      · rw [hstore2, List.countP_append, hzero]
        simp [mkNewProject]
      · intro ty2 ph2 dept2 b2 now2
        have hmem : mkNewProject name ty ph dept b now ∈ store2 := by
          rw [hstore2]
          exact List.mem_append_right store (List.mem_cons_self _ _)
        have hsome : (findByName store2 name).isSome = true := by
          rw [findByName, List.find?_isSome]
          exact ⟨mkNewProject name ty ph dept b now, hmem, by simp [mkNewProject]⟩
        simp [createProject, hsome]

/-- C4 witness: the validation theorem applied at the empty store with
the name X, then a duplicate second creation. -/
theorem C4_create_validation_witness :
    createProject [] "" "Digitization" "None" "Automation" 1 0 = none ∧
    (([] ++ [mkNewProject "X" "Digitization" "None" "Automation" 1 0]).countP
        (fun p : Project => p.name == "X") = 1 ∧
      createProject ([] ++ [mkNewProject "X" "Digitization" "None" "Automation" 1 0])
        "X" "Special Project" "Scoping" "QMS" 2 1 = none) := by
  have h : createProject [] "X" "Digitization" "None" "Automation" 1 0 =
      some ([] ++ [mkNewProject "X" "Digitization" "None" "Automation" 1 0]) := by
    decide
  have h2 := (C4_create_validation [] "X" "Digitization" "None" "Automation" 1 0).2.2
    ([] ++ [mkNewProject "X" "Digitization" "None" "Automation" 1 0]) h
  exact ⟨(C4_create_validation [] "" "Digitization" "None" "Automation" 1 0).1 rfl,
    h2.1, h2.2 "Special Project" "Scoping" "QMS" 2 1⟩

/-- C5 counterexample: deleting a name that is absent completes
silently — the store is returned unchanged and no message of any kind
(in particular no NotFoundError) is produced. -/
theorem C5_counterexample : deleteProject [] "Ghost" = ([], false) := rfl

/-- C5 amended: deleting an absent name is a silent no-op that leaves
the store unchanged (no error is signaled); otherwise delete removes
exactly the first record carrying the name. -/
theorem C5_delete_spec (store : List Project) (name : String) :
    ((∀ p ∈ store, p.name ≠ name) → deleteProject store name = (store, false)) ∧
    (∀ l1 b l2, store = l1 ++ b :: l2 → Project.name b = name →
      (∀ p ∈ l1, p.name ≠ name) →
      deleteProject store name = (l1 ++ l2, true)) := by
  refine ⟨fun h => deleteProject_of_not_mem store name h, ?_⟩
  intro l1 b l2 hsplit hb h1
  rw [hsplit]
  exact deleteProject_of_found l1 b l2 name hb h1

/-- C5 witness: the delete spec applied to a concrete two-project
store, removing the second record. -/
theorem C5_delete_spec_witness :
    deleteProject [mkNewProject "A" "Digitization" "None" "HR" 1 0,
        mkNewProject "B" "Digitization" "None" "HR" 2 0] "B" =
      ([mkNewProject "A" "Digitization" "None" "HR" 1 0] ++ [], true) := by
  exact (C5_delete_spec [mkNewProject "A" "Digitization" "None" "HR" 1 0,
      mkNewProject "B" "Digitization" "None" "HR" 2 0] "B").2
    [mkNewProject "A" "Digitization" "None" "HR" 1 0]
    (mkNewProject "B" "Digitization" "None" "HR" 2 0) [] rfl rfl (by decide)

/-- C6 counterexample: updating a name that is absent completes
silently — the store is returned unchanged and no message of any kind
(in particular no NotFoundError) is produced. -/
theorem C6_counterexample : updateProject [] "Ghost" "Scoping" "HR" 5 = ([], false) :=
  rfl

/-- C6 amended: updating an absent name is a silent no-op that leaves
the store unchanged (no error is signaled); a found record has its
phase, department and budget overwritten in one step, and no update
ever changes the name or created_at column of any record. -/
theorem C6_update_spec (store : List Project) (name ph dept : String) (b : ℚ) :
    ((∀ p ∈ store, p.name ≠ name) → updateProject store name ph dept b = (store, false)) ∧
    ((updateProject store name ph dept b).1.map Project.name = store.map Project.name) ∧
    ((updateProject store name ph dept b).1.map Project.created_at =
      store.map Project.created_at) ∧
    (∀ l1 q l2, store = l1 ++ q :: l2 → Project.name q = name →
      (∀ p ∈ l1, p.name ≠ name) →
      updateProject store name ph dept b =
        (l1 ++ { q with phase := ph, department := dept, budget := b } :: l2, true)) := by
  refine ⟨fun h => updateProject_of_not_mem store name ph dept b h,
    updateProject_map_name store name ph dept b,
    updateProject_map_created_at store name ph dept b, ?_⟩
  intro l1 q l2 hsplit hq h1
  rw [hsplit]
  exact updateProject_of_found l1 q l2 name ph dept b hq h1

/-- C6 witness: the update spec applied to a concrete one-project
store, patching phase, department and budget of that record. -/
theorem C6_update_spec_witness :
    updateProject [mkNewProject "A" "Digitization" "None" "HR" 1 0] "A"
        "Rollout" "Finance" 9 =
      ([{ mkNewProject "A" "Digitization" "None" "HR" 1 0 with
          phase := "Rollout", department := "Finance", budget := 9 }], true) := by
  have h := (C6_update_spec [mkNewProject "A" "Digitization" "None" "HR" 1 0] "A"
      "Rollout" "Finance" 9).2.2.2
    [] (mkNewProject "A" "Digitization" "None" "HR" 1 0) [] rfl rfl (by simp)
  simpa using h

/-- Helper: summing pointwise sums over a mapped list splits. -/
lemma sum_map_add (d : List String) (f g : String → Nat) :
    (d.map fun x => f x + g x).sum = (d.map f).sum + (d.map g).sum := by
  induction d with
  | nil => rfl
  | cons x d ih =>
    simp [List.sum_cons, ih]
    omega

/-- Helper: the one-point indicator sums to zero off the support. -/
lemma sum_map_indicator_zero (d : List String) (a : String) (ha : a ∉ d) :
    (d.map fun k => if a = k then 1 else 0).sum = 0 := by
  induction d with
  | nil => rfl
  | cons x d ih =>
    have hx : ¬ a = x := fun h => ha (h ▸ List.mem_cons_self x d)
    have had : a ∉ d := fun h => ha (List.mem_cons_of_mem x h)
    simp [List.sum_cons, hx, ih had]

/-- Helper: the one-point indicator sums to one over a duplicate-free
list containing the point. -/
lemma sum_map_indicator_one (d : List String) (a : String) (hd : d.Nodup)
    (ha : a ∈ d) :
    (d.map fun k => if a = k then 1 else 0).sum = 1 := by
  induction d with
  | nil => exact absurd ha (List.not_mem_nil a)
  | cons x d ih =>
    by_cases hx : a = x
    · subst hx
      have had : a ∉ d := (List.nodup_cons.mp hd).1
      simp [List.sum_cons, sum_map_indicator_zero d a had]
    · have had : a ∈ d := (List.mem_cons.mp ha).resolve_left hx
      simp [List.sum_cons, hx, ih (List.nodup_cons.mp hd).2 had]

/-- Helper: the per-distinct-key occurrence counts sum to the list
length. -/
lemma sum_map_count_dedup (l : List String) :
    (l.dedup.map fun k => l.count k).sum = l.length := by
  induction l with
  | nil => rfl
  | cons a l ih =>
    have hfun : (fun k => (a :: l).count k) =
        fun k => l.count k + if a = k then 1 else 0 := by
      funext k
      simp [List.count_cons]
    have hsplit : ∀ d : List String,
        (d.map fun k => (a :: l).count k).sum =
          (d.map fun k => l.count k).sum +
            (d.map fun k => if a = k then 1 else 0).sum := by
      intro d
      rw [hfun, sum_map_add d]
    by_cases h : a ∈ l
    · rw [List.dedup_cons_of_mem h, hsplit,
        sum_map_indicator_one l.dedup a (List.nodup_dedup l) (List.mem_dedup.mpr h),
        ih]
      rfl
    · rw [List.dedup_cons_of_not_mem h]
      simp only [List.map_cons, List.sum_cons, hsplit,
        sum_map_indicator_zero l.dedup a (fun hm => h (List.mem_dedup.mp hm)), ih]
      have hca : (a :: l).count a = l.count a + 1 := by
        simp [List.count_cons]
      have hcz : l.count a = 0 := List.count_eq_zero.mpr h
      rw [hca, hcz]
      simp [List.length_cons]
      omega

/-- C7: group_counts has one entry per distinct key value present in
the input, the counts sum to the number of projects, and the empty
list yields the empty mapping rather than an error. -/
theorem C7_group_counts (projects : List Project) (key : Project → String) :
    ((group_counts (projects.map key)).map Prod.fst).Nodup ∧
    (∀ k : String, k ∈ (group_counts (projects.map key)).map Prod.fst ↔
      k ∈ projects.map key) ∧
    ((group_counts (projects.map key)).map Prod.snd).sum = projects.length ∧
    group_counts [] = [] := by
  have hfst : (group_counts (projects.map key)).map Prod.fst =
      (projects.map key).dedup := by
    rw [group_counts, List.map_map]
    have hid : (Prod.fst ∘ fun k =>
        ((k, (projects.map key).count k) : String × Nat)) = id := rfl
    rw [hid, List.map_id]
  have hsnd : (group_counts (projects.map key)).map Prod.snd =
      (projects.map key).dedup.map fun k => (projects.map key).count k := by
    rw [group_counts, List.map_map]
    rfl
  refine ⟨?_, ?_, ?_, rfl⟩
  · rw [hfst]
    exact List.nodup_dedup _
  · intro k
    rw [hfst]
    exact List.mem_dedup
  · rw [hsnd, sum_map_count_dedup, List.length_map]

/-- C7 witness: grouping two same-typed projects by type yields counts
summing to two. -/
theorem C7_group_counts_witness :
    ((group_counts ([mkNewProject "A" "Digitization" "None" "HR" 1 0,
        mkNewProject "B" "Digitization" "None" "HR" 2 0].map Project.type)).map
      Prod.snd).sum = 2 :=
  (C7_group_counts [mkNewProject "A" "Digitization" "None" "HR" 1 0,
    mkNewProject "B" "Digitization" "None" "HR" 2 0] Project.type).2.2.1

/-- C8 counterexample: on an empty project list the portfolio page (and
the dashboard) emits the no-projects warning and returns early — it
renders no totals view at all, and in particular no zero-totals
output. -/
theorem C8_counterexample :
    project_portfolio_management [] = PageView.warning ∧
    project_portfolio_management [] ≠
      PageView.view ([] : List (String × String × ℚ)) ∧
    dashboard_status_table [] = PageView.warning := by
  refine ⟨rfl, by decide, rfl⟩

/-- C8 amended: the aggregation pages are total on the empty list — no
exception, an early no-projects warning instead; on a non-empty list
they render their per-project rows (the portfolio page charts
per-project budgets and computes no totals). -/
theorem C8_empty_pages (projects : List Project) :
    (projects = [] → dashboard_status_table projects = PageView.warning ∧
      project_portfolio_management projects = PageView.warning) ∧
    (projects ≠ [] →
      dashboard_status_table projects = PageView.view (projects.map fun p =>
        (p.name, classify_status p.execution_progress, p.execution_progress)) ∧
      project_portfolio_management projects = PageView.view (projects.map fun p =>
        (p.name, p.name, p.budget))) := by
  constructor
  · intro h
    subst h
    exact ⟨rfl, rfl⟩
  · intro h
    constructor
    · simp [dashboard_status_table, h]
    · simp [project_portfolio_management, h]

/-- C8 witness: the page totality theorem applied at the empty list. -/
theorem C8_empty_pages_witness :
    dashboard_status_table [] = PageView.warning ∧
    project_portfolio_management [] = PageView.warning :=
  (C8_empty_pages []).1 rfl

end BTApp
